import Mathlib

/-!
Shallow embedding of the WhatsApp-Web automation core
(`whatsapp-automation/backend/whatsapp_messages/whatsapp_web_service.py`
and the status endpoint of `whatsapp_messages/views.py`).

External, nondeterministic behaviour of the browser / platform UI is
supplied by explicit environment records (`Page`, `MsgEnv`, `BulkEnv`,
`RecEnv`): each field fixes the outcome of one external query the code
performs (driver start, element waits, clicks, validator probes, QR
scans).  The control flow, the produced result dictionaries and their
exact error strings are translated line by line from the Python source.
Python exceptions are modelled with `Except String`: a `.error s` value
is an exception with message `s` propagating past the point in question,
and the code's `try/except` handlers are embedded as matches on it.
Observable side effects (driver creation, navigations, locator-strategy
invocations, clicks, profile mutations) are recorded in a trace of
`Ev` events so that "no X was attempted" claims are statable.
-/

/-- Result dictionary produced by `send_message` / `send_bulk_messages`.
`recipient := none` models the single-send dictionaries, which carry no
`'recipient'` key; bulk dictionaries always set it. -/
structure SendResult where
  success : Bool
  message_sid : Option String
  status : String
  error : Option String
  recipient : Option String
  deriving Repr, DecidableEq

/-- Observable actions of the service, recorded in traces. -/
inductive Ev where
  | createDriver
  | quitDriver
  | navHome
  | waitLogin
  | findQr
  | recreate
  | navChat (phoneClean : String)
  | chatWait
  | findInvalidBanner
  | inputStrategy (i : Nat)
  | insertScript
  | sendStrategy (i : Nat)
  | click
  | clearedProfile
  | restoredBackup
  | ranValidator
  | enteredQR
  | backedUp
  deriving Repr, DecidableEq

/-- `to_phone.replace('+','').replace(' ','').replace('-','')`: single-char
`str.replace` with empty replacement removes every occurrence, i.e. filters
the character out. -/
def cleanPhone (s : String) : String :=
  String.mk (s.data.filter (fun c => !(c = '+' || c = ' ' || c = '-')))

/-- Fuel-bounded removal of every occurrence of a pattern from a character
list (the semantics of Python `str.replace(pat, '')`). -/
def removeAllAux (pat : List Char) : Nat → List Char → List Char
  | 0, s => s
  | fuel + 1, s =>
    if pat.isPrefixOf s ∧ pat ≠ [] then removeAllAux pat fuel (s.drop pat.length)
    else
      match s with
      | [] => []
      | c :: r => c :: removeAllAux pat fuel r

/-- `if to_phone.startswith('whatsapp:'): to_phone = to_phone.replace('whatsapp:', '')`
(lines 43–44 and 393–394 of the service). -/
def stripWa (s : String) : String :=
  if ("whatsapp:".data).isPrefixOf s.data then
    String.mk (removeAllAux "whatsapp:".data s.data.length s.data)
  else s

/-- Single-send failure dictionary: `{'success': False, 'message_sid': None,
'status': 'failed', 'error': <err>}`. -/
def failRes (err : String) : SendResult :=
  { success := false, message_sid := none, status := "failed",
    error := some err, recipient := none }

/-- Bulk failure dictionary, which additionally carries `'recipient'`. -/
def bulkFail (recip err : String) : SendResult :=
  { success := false, message_sid := none, status := "failed",
    error := some err, recipient := some recip }

/-- Single-send success dictionary (lines 260–265). -/
def okMsg (t : Nat) : SendResult :=
  { success := true, message_sid := some ("whatsapp_web_" ++ Nat.repr t),
    status := "sent", error := none, recipient := none }

/-- Bulk success dictionary (lines 421–427). -/
def okBulk (t : Nat) (phoneClean recip : String) : SendResult :=
  { success := true,
    message_sid := some ("whatsapp_web_" ++ Nat.repr t ++ "_" ++ phoneClean),
    status := "sent", error := none, recipient := some recip }

/-- Embedding of `EC.any_of` (and of the sequential `find_element`
try/except chains): candidate strategies are evaluated in declaration
order, indexed from `start`; the first success wins and stops the scan.
Returns the index of the winning strategy (its handle) together with the
list of indices of the strategies that were invoked. -/
def anyOfFrom : List Bool → Nat → Option Nat × List Nat
  | [], _ => (none, [])
  | b :: rest, start =>
    if b then (some start, [start])
    else
      let r := anyOfFrom rest (start + 1)
      (r.1, start :: r.2)

/-- A locator strategy chain evaluated from index 0. -/
def anyOf (outcomes : List Bool) : Option Nat × List Nat :=
  anyOfFrom outcomes 0

/-- State of the platform page for one recipient's conversation, as far as
the service's queries can observe it, plus the outcome of the actions the
service performs on it.  Strategy-outcome lists hold one Bool per candidate
selector, in the declaration order of the corresponding `any_of` /
try-chain in the source. -/
structure Page where
  /-- `driver.get(chat_url)` raises. -/
  navRaises : Bool
  navError : String
  /-- the "Phone number shared via url is invalid" banner is present. -/
  invalidBanner : Bool
  /-- the "Couldn't send message" banner is present. -/
  couldntSendBanner : Bool
  /-- outcomes of the three compose-input selectors (`data-testid`
  compose box, `contenteditable`, `div[role=textbox]`), used both in the
  chat-load `any_of` and in the message-input try-chain. -/
  composeStrats : List Bool
  /-- a chat indicator (`data-testid="chat"` / conversation header) is
  present. -/
  chatIndicator : Bool
  /-- the JavaScript `insertText` overwrite succeeds. -/
  insertScriptOk : Bool
  insertErr : String
  /-- outcomes of the seven send-button selectors of `send_message`. -/
  sendStratsMsg : List Bool
  /-- outcomes of the five send-button selectors of `send_bulk_messages`. -/
  sendStratsBulk : List Bool
  /-- `send_button.click()` succeeds. -/
  clickOk : Bool
  clickError : String
  chatWaitErr : String
  sendWaitErr : String
  deriving Repr, DecidableEq

/-- The chat-load `any_of` (lines 165–178) resolves iff one of its seven
conditions holds: a compose-input selector, one of the two error banners,
or a chat indicator (the two fallback conditions observe the same
indicator). -/
def chatResolves (p : Page) : Bool :=
  p.composeStrats.any (fun b => b) || p.invalidBanner ||
    p.couldntSendBanner || p.chatIndicator

/-- Environment for one `send_message` call: outcomes of the session-level
external queries plus the target conversation page. -/
structure MsgEnv where
  /-- `Service(ChromeDriverManager().install())` and `webdriver.Chrome(...)`
  (lines 64–65) succeed.  In `send_message` both sit INSIDE the outer
  `try` (line 41), so their failures are caught. -/
  driverInitOk : Bool
  driverInitError : String
  /-- the anti-detection script and initial `driver.get` (lines 69–73)
  succeed. -/
  initNavOk : Bool
  initNavError : String
  /-- the 20s wait for the `side` element (line 77) succeeds. -/
  sideOk : Bool
  /-- `str(session_error)` of the failed wait. -/
  sessionError : String
  /-- the QR-code `find_element` (line 84) succeeds (only consulted when
  the `side` wait failed). -/
  qrFound : Bool
  /-- `_recreate_session_automatically()` returns True. -/
  recreateOk : Bool
  /-- the post-recreation driver start (lines 100–103 / 136–139)
  succeeds. -/
  retryDriverOk : Bool
  retryDriverError : String
  /-- the post-recreation `side` wait (lines 106 / 142) succeeds. -/
  retrySideOk : Bool
  page : Page
  /-- `int(time.time())`. -/
  time : Nat
  deriving Repr

/-- Lines 203–282 of `send_message`: find the compose input via the
three-selector try-chain, overwrite its content via JavaScript, then
locate the send control through the seven-strategy `any_of` and click it.
The whole block sits under one `except` handler, so a failing overwrite
script, an unresolved send chain and a failing click all produce the
`'Could not find send button: ...'` dictionary. -/
def sendPhase (p : Page) (t : Nat) (evs : List Ev) :
    Except String SendResult × List Ev :=
  let inputEvs := (anyOf p.composeStrats).2.map Ev.inputStrategy
  let afterInput := evs ++ inputEvs
  if (anyOf p.composeStrats).1.isSome ∧ ¬ p.insertScriptOk then
    (Except.ok (failRes ("Could not find send button: " ++ p.insertErr)),
     afterInput ++ [Ev.insertScript])
  else
    let evs1 :=
      if (anyOf p.composeStrats).1.isSome then afterInput ++ [Ev.insertScript]
      else afterInput
    let sEvs := (anyOf p.sendStratsMsg).2.map Ev.sendStrategy
    match (anyOf p.sendStratsMsg).1 with
    | none =>
      (Except.ok (failRes ("Could not find send button: " ++ p.sendWaitErr)),
       evs1 ++ sEvs)
    | some _ =>
      if p.clickOk then (Except.ok (okMsg t), evs1 ++ sEvs ++ [Ev.click])
      else
        (Except.ok (failRes ("Could not find send button: " ++ p.clickError)),
         evs1 ++ sEvs ++ [Ev.click])

/-- Lines 154–282 of `send_message`: navigate to the conversation URL,
wait for the chat-load `any_of`, check the invalid-number banner, then run
`sendPhase`.  A navigation exception propagates (it is only caught by the
outermost handler); a chat-load timeout and a present banner return their
failure dictionaries directly. -/
def chatPhase (p : Page) (t : Nat) (phone clean : String) :
    Except String SendResult × List Ev :=
  if p.navRaises then (Except.error p.navError, [Ev.navChat clean])
  else if ¬ chatResolves p then
    (Except.ok (failRes ("Chat failed to load: " ++ p.chatWaitErr)),
     [Ev.navChat clean, Ev.chatWait])
  else if p.invalidBanner then
    (Except.ok (failRes ("Invalid phone number: " ++ phone)),
     [Ev.navChat clean, Ev.chatWait, Ev.findInvalidBanner])
  else
    sendPhase p t [Ev.navChat clean, Ev.chatWait, Ev.findInvalidBanner]

/-- Body of `send_message` (lines 42–288, i.e. everything inside the
outermost `try`).  `.error s` models an exception with message `s`
reaching the outermost handler.  The two session-recovery branches follow
the source exactly; in the QR branch a failing post-recreation driver
start is swallowed by the bare `except: pass` (line 117), after which the
chat navigation on the already-quit driver raises. -/
def send_message_inner (e : MsgEnv) (to_phone msg : String) :
    Except String SendResult × List Ev :=
  let phone := stripWa to_phone
  let clean := cleanPhone phone
  if ¬ e.driverInitOk then (Except.error e.driverInitError, [Ev.createDriver])
  else if ¬ e.initNavOk then
    (Except.error e.initNavError, [Ev.createDriver, Ev.navHome])
  else
    let pre := [Ev.createDriver, Ev.navHome, Ev.waitLogin]
    if e.sideOk then
      let c := chatPhase e.page e.time phone clean
      (c.1, pre ++ c.2)
    else if e.qrFound then
      if ¬ e.recreateOk then
        (Except.ok (failRes ("WhatsApp Web session expired and auto-recreation failed. " ++
           "Please run: python manage.py setup_whatsapp --force")),
         pre ++ [Ev.findQr, Ev.quitDriver, Ev.recreate])
      else if ¬ e.retryDriverOk then
        (Except.error e.retryDriverError,
         pre ++ [Ev.findQr, Ev.quitDriver, Ev.recreate, Ev.createDriver, Ev.navChat clean])
      else if ¬ e.retrySideOk then
        (Except.ok (failRes "WhatsApp Web session could not be restored"),
         pre ++ [Ev.findQr, Ev.quitDriver, Ev.recreate, Ev.createDriver, Ev.navHome, Ev.waitLogin])
      else
        let c := chatPhase e.page e.time phone clean
        (c.1, pre ++ [Ev.findQr, Ev.quitDriver, Ev.recreate, Ev.createDriver,
          Ev.navHome, Ev.waitLogin] ++ c.2)
    else
      if ¬ e.recreateOk then
        (Except.ok (failRes ("WhatsApp Web session not active and auto-recreation failed: " ++
           e.sessionError)),
         pre ++ [Ev.findQr, Ev.quitDriver, Ev.recreate])
      else if ¬ e.retryDriverOk then
        (Except.error e.retryDriverError,
         pre ++ [Ev.findQr, Ev.quitDriver, Ev.recreate, Ev.createDriver])
      else if ¬ e.retrySideOk then
        (Except.ok (failRes "WhatsApp Web session could not be restored"),
         pre ++ [Ev.findQr, Ev.quitDriver, Ev.recreate, Ev.createDriver, Ev.navHome, Ev.waitLogin])
      else
        let c := chatPhase e.page e.time phone clean
        (c.1, pre ++ [Ev.findQr, Ev.quitDriver, Ev.recreate, Ev.createDriver,
          Ev.navHome, Ev.waitLogin] ++ c.2)

/-- `send_message` as observed by the caller: the body under the
outermost `except Exception as error` handler (lines 290–297), which
converts any escaping exception into the generic failure dictionary.
An `.error` value of this function would be an exception reaching the
Django caller. -/
def send_message (e : MsgEnv) (to_phone msg : String) :
    Except String (SendResult × List Ev) :=
  match send_message_inner e to_phone msg with
  | (Except.ok r, tr) => Except.ok (r, tr)
  | (Except.error s, tr) => Except.ok (failRes s, tr)

/-- Environment for one `send_bulk_messages` call. -/
structure BulkEnv where
  /-- `Service(ChromeDriverManager().install())` at line 329 succeeds.
  Unlike in `send_message`, this call executes BEFORE the `try` block
  (line 331) of `send_bulk_messages`: its failure is caught by no handler
  of the function and propagates to the caller. -/
  driverMgrOk : Bool
  /-- message of the exception raised by the driver-manager resolution. -/
  driverMgrError : String
  /-- driver start plus anti-detection script plus home navigation
  (lines 332–339, inside the `try`) succeed. -/
  driverInitOk : Bool
  driverInitError : String
  /-- the 20s `side` wait (line 342) succeeds. -/
  sideOk : Bool
  /-- `_recreate_session_automatically()` returns True. -/
  recreateOk : Bool
  /-- post-recreation driver start, navigation and `side` wait
  (lines 366–374) all succeed. -/
  retryOk : Bool
  /-- the conversation page each recipient's navigation lands on. -/
  pages : String → Page
  /-- `int(time.time())`. -/
  time : Nat

/-- Loop body of `send_bulk_messages` (lines 390–450) for one recipient:
strip the `whatsapp:` prefix, clean the number, navigate to the
conversation URL, locate the send control through the five-strategy
`any_of` and click it.  No banner check and no compose-input overwrite
are performed.  Every exception is caught by the per-recipient handlers,
so this always yields a result dictionary. -/
def bulkSendOne (t : Nat) (p : Page) (msg r0 : String) :
    SendResult × List Ev :=
  let r := stripWa r0
  let clean := cleanPhone r
  if p.navRaises then (bulkFail r p.navError, [Ev.navChat clean])
  else
    let sEvs := (anyOf p.sendStratsBulk).2.map Ev.sendStrategy
    match (anyOf p.sendStratsBulk).1 with
    | none =>
      (bulkFail r ("Could not find send button: " ++ p.sendWaitErr),
       [Ev.navChat clean] ++ sEvs)
    | some _ =>
      if p.clickOk then
        (okBulk t clean r, [Ev.navChat clean] ++ sEvs ++ [Ev.click])
      else
        (bulkFail r ("Could not find send button: " ++ p.clickError),
         [Ev.navChat clean] ++ sEvs ++ [Ev.click])

/-- Body of `send_bulk_messages` (lines 331–450, everything inside the
outer `try`).  `.error s` models an exception escaping to the outer
handler, which only the in-`try` driver-start phase can produce: the two
session-failure paths return complete failure lists themselves, and the
recipient loop catches everything per recipient.  The fallible
driver-manager resolution of line 329 precedes the `try` and is modelled
in `send_bulk_messages` itself. -/
def send_bulk_inner (e : BulkEnv) (recipients : List String) (msg : String) :
    Except String (List SendResult) × List Ev :=
  if ¬ e.driverInitOk then (Except.error e.driverInitError, [Ev.createDriver])
  else
    let pre := [Ev.createDriver, Ev.navHome, Ev.waitLogin]
    let loop : Except String (List SendResult) × List Ev → Except String (List SendResult) × List Ev :=
      fun st =>
        (Except.ok (recipients.map fun r => (bulkSendOne e.time (e.pages r) msg r).1),
         st.2 ++ (recipients.map fun r => (bulkSendOne e.time (e.pages r) msg r).2).flatten)
    if e.sideOk then loop (Except.ok [], pre)
    else if ¬ e.recreateOk then
      (Except.ok (recipients.map fun r =>
         bulkFail r ("WhatsApp Web session expired and auto-recreation failed. " ++
           "Please run setup manually.")),
       pre ++ [Ev.quitDriver, Ev.recreate])
    else if ¬ e.retryOk then
      (Except.ok (recipients.map fun r =>
         bulkFail r "WhatsApp Web session could not be restored"),
       pre ++ [Ev.quitDriver, Ev.recreate, Ev.createDriver, Ev.navHome, Ev.waitLogin])
    else loop (Except.ok [], pre ++ [Ev.quitDriver, Ev.recreate, Ev.createDriver,
      Ev.navHome, Ev.waitLogin])

/-- `send_bulk_messages` as observed by the caller.  Lines 316–329
(options setup and `Service(ChromeDriverManager().install())`) run
before the `try` block: a failure of the driver-manager resolution is
caught by nothing in the function and raises out of it (`.error`).  Only
then comes the `try` body (`send_bulk_inner`) under the outer
`except Exception as e` handler (lines 452–462), which turns an
exception escaping the body into one driver-initialization failure
dictionary per recipient (iterating the original input list). -/
def send_bulk_messages (e : BulkEnv) (recipients : List String) (msg : String) :
    Except String (List SendResult × List Ev) :=
  if ¬ e.driverMgrOk then Except.error e.driverMgrError
  else
    match send_bulk_inner e recipients msg with
    | (Except.ok rs, tr) => Except.ok (rs, tr)
    | (Except.error s, tr) =>
      Except.ok (recipients.map fun r =>
        bulkFail r ("Driver initialization failed: " ++ s), tr)

/-- The result/trace pair `send_message` returns (total projection; the
`.error` arm is unreachable, as proved below). -/
def runMsg (e : MsgEnv) (to_phone msg : String) : SendResult × List Ev :=
  match send_message e to_phone msg with
  | Except.ok o => o
  | Except.error s => (failRes s, [])

/-- The result/trace pair `send_bulk_messages` hands back whenever it
returns at all: its `try` body under the outer handler.  The pre-`try`
driver-manager failure path returns no list; it is visible only on
`send_bulk_messages` itself, as an `.error`. -/
def runBulk (e : BulkEnv) (recipients : List String) (msg : String) :
    List SendResult × List Ev :=
  match send_bulk_inner e recipients msg with
  | (Except.ok rs, tr) => (rs, tr)
  | (Except.error s, tr) =>
    (recipients.map fun r => bulkFail r ("Driver initialization failed: " ++ s), tr)

/-- Filesystem state relevant to the session lifecycle: the profile
directory (`whatsapp_session`) and its backup (`whatsapp_session_backup`).
`none` means the directory is absent; `some files` lists its contents. -/
structure FsState where
  profile : Option (List String)
  backup : Option (List String)
  deriving Repr, DecidableEq

/-- `create_session_backup` (lines 639–661): if the session directory does
not exist, log and return `False`; otherwise remove any existing backup
directory (`shutil.rmtree`) and `shutil.copytree` the profile into its
place, so the prior backup is replaced, never merged into.  The whole
body is wrapped in `try/except` returning `False`, so it never raises. -/
def create_session_backup (fs : FsState) : Bool × FsState :=
  match fs.profile with
  | none => (false, fs)
  | some files => (true, { fs with backup := some files })

/-- Environment for session recreation: outcomes of the external probes
it performs. -/
structure RecEnv where
  /-- `_test_session_validity()` outcome for the restored profile: a
  fresh headless driver on the restored profile finds the `side` element
  within its wait. -/
  restoredValid : Bool
  /-- the visible QR handshake completes (the `side` element appears
  within the 60s wait). -/
  qrScanOk : Bool
  /-- profile contents the browser writes during the fresh handshake. -/
  qrProfile : List String
  deriving Repr

/-- `_setup_fresh_session_with_qr` (lines 550–606): launch a visible
driver on the profile directory (the browser writes its state there),
wait up to 60s for the login indicator; on success call
`create_session_backup` and return `True`, on timeout return `False`. -/
def setup_fresh_session_with_qr (env : RecEnv) (fs : FsState) :
    Bool × FsState × List Ev :=
  let fs1 := { fs with profile := some env.qrProfile }
  if env.qrScanOk then
    ((create_session_backup fs1).1, (create_session_backup fs1).2,
     [Ev.enteredQR, Ev.backedUp])
  else (false, fs1, [Ev.enteredQR])

/-- `_recreate_session_automatically` (lines 512–548): clear the existing
profile (`rmtree` + empty `makedirs`) if present; if a backup directory
exists, `copytree` it into the (empty or absent) profile location and run
`_test_session_validity`; a valid restore returns `True` immediately, an
invalid one is cleared again before falling through to
`_setup_fresh_session_with_qr`.  With no backup, fall through directly. -/
def recreate_session_automatically (env : RecEnv) (fs : FsState) :
    Bool × FsState × List Ev :=
  let cleared : FsState × List Ev :=
    match fs.profile with
    | some _ => ({ fs with profile := some [] }, [Ev.clearedProfile])
    | none => (fs, [])
  match cleared.1.backup with
  | some b =>
    let restored : FsState := { cleared.1 with profile := some b }
    if env.restoredValid then
      (true, restored, cleared.2 ++ [Ev.restoredBackup, Ev.ranValidator])
    else
      let recleared : FsState := { restored with profile := some [] }
      let q := setup_fresh_session_with_qr env recleared
      (q.1, q.2.1,
       cleared.2 ++ [Ev.restoredBackup, Ev.ranValidator, Ev.clearedProfile] ++ q.2.2)
  | none =>
    let q := setup_fresh_session_with_qr env cleared.1
    (q.1, q.2.1, cleared.2 ++ q.2.2)

/-- The `whatsapp_web_status` endpoint (views.py lines 260–280), the
code behind `sessionIsActive()`: construct `WhatsAppWebService` (whose
`__init__` runs `os.makedirs(session_dir, exist_ok=True)`, creating an
empty profile directory when none exists and leaving an existing one
untouched), then report whether `session_dir/Default` exists.  No driver
is ever started; the trace is empty of browser events. -/
def whatsapp_web_status (fs : FsState) : Bool × FsState × List Ev :=
  let fs1 := { fs with profile := some (fs.profile.getD []) }
  (((fs1.profile.getD []).contains "Default"), fs1, [])

/-- Internal coherence of one result dictionary: `success` agrees with
`status`, with the nullability of `error`, and with the presence of the
synthetic message handle; failures carry `status='failed'`, a reason
string and no handle. -/
def coherent (r : SendResult) : Prop :=
  (r.success = true ↔ r.status = "sent") ∧
  (r.success = true ↔ r.error = none) ∧
  (r.success = true ↔ r.message_sid ≠ none) ∧
  (r.success = false → r.status = "failed" ∧ r.error ≠ none ∧ r.message_sid = none)

/-- A conversation page on which the platform shows the invalid-address
banner: no compose box, no chat indicator, no resolvable send control. -/
def pageBad : Page :=
  { navRaises := false, navError := "nav", invalidBanner := true,
    couldntSendBanner := false, composeStrats := [false, false, false],
    chatIndicator := false, insertScriptOk := true, insertErr := "ins",
    sendStratsMsg := [false, false, false, false, false, false, false],
    sendStratsBulk := [false, false, false, false, false],
    clickOk := true, clickError := "clk", chatWaitErr := "cw",
    sendWaitErr := "Timed out" }

/-- A healthy conversation page: compose box found by the first selector,
send control found by the first strategy, click succeeds. -/
def pageGood : Page :=
  { navRaises := false, navError := "nav", invalidBanner := false,
    couldntSendBanner := false, composeStrats := [true, false, false],
    chatIndicator := true, insertScriptOk := true, insertErr := "ins",
    sendStratsMsg := [true, false, false, false, false, false, false],
    sendStratsBulk := [true, false, false, false, false],
    clickOk := true, clickError := "clk", chatWaitErr := "cw",
    sendWaitErr := "sw" }

/-- Bulk environment with a valid session whose every conversation page is
`pageBad`. -/
def envB4 : BulkEnv :=
  { driverMgrOk := true, driverMgrError := "mgr", driverInitOk := true,
    driverInitError := "boom", sideOk := true, recreateOk := true,
    retryOk := true, pages := fun _ => pageBad, time := 7 }

/-- Single-send environment with a valid session and page `pageBad`. -/
def envM5 : MsgEnv :=
  { driverInitOk := true, driverInitError := "boom", initNavOk := true,
    initNavError := "nav0", sideOk := true, sessionError := "se",
    qrFound := false, recreateOk := true, retryDriverOk := true,
    retryDriverError := "rd", retrySideOk := true, page := pageBad, time := 7 }

/-- Bulk environment with a valid session whose every page is `pageGood`. -/
def envGoodB : BulkEnv :=
  { driverMgrOk := true, driverMgrError := "mgr", driverInitOk := true,
    driverInitError := "boom", sideOk := true, recreateOk := true,
    retryOk := true, pages := fun _ => pageGood, time := 3 }

/-- Single-send environment with a valid session and page `pageGood`. -/
def envGoodM : MsgEnv :=
  { driverInitOk := true, driverInitError := "boom", initNavOk := true,
    initNavError := "nav0", sideOk := true, sessionError := "se",
    qrFound := false, recreateOk := true, retryDriverOk := true,
    retryDriverError := "rd", retrySideOk := true, page := pageGood, time := 3 }

/-- Bulk environment whose in-`try` driver start (lines 332–339) raises,
the caught driver-initialization failure mode. -/
def envFailB : BulkEnv :=
  { driverMgrOk := true, driverMgrError := "mgr", driverInitOk := false,
    driverInitError := "boom", sideOk := true, recreateOk := true,
    retryOk := true, pages := fun _ => pageGood, time := 3 }

/-- Bulk environment whose pre-`try` driver-manager resolution (line 329)
raises, the uncaught driver-initialization failure mode. -/
def envMgrFail : BulkEnv :=
  { driverMgrOk := false, driverMgrError := "chromedriver download failed",
    driverInitOk := true, driverInitError := "boom", sideOk := true,
    recreateOk := true, retryOk := true, pages := fun _ => pageGood, time := 3 }

lemma anyOfFrom_isSome (l : List Bool) : ∀ s, ((anyOfFrom l s).1).isSome = l.any (fun b => b) := by
  induction l with
  | nil => intro s; simp [anyOfFrom]
  | cons b rest ih =>
    intro s
    cases b <;> simp [anyOfFrom, ih]

lemma anyOf_isSome (l : List Bool) : ((anyOf l).1).isSome = l.any (fun b => b) := by
  simpa [anyOf] using anyOfFrom_isSome l 0

lemma anyOfFrom_first_true (l : List Bool) :
    ∀ (K s : Nat), l.get? K = some true → (∀ i, i < K → l.get? i = some false) →
      anyOfFrom l s = (some (s + K), List.range' s (K + 1)) := by
  induction l with
  | nil => intro K s h _; simp at h
  | cons b rest ih =>
    intro K s h h'
    cases K with
    | zero =>
      simp at h
      subst h
      simp [anyOfFrom, List.range']
    | succ K' =>
      have hb : b = false := by simpa using h' 0 (Nat.succ_pos _)
      subst hb
      have hrest := ih K' (s + 1) (by simpa using h)
        (fun i hi => by simpa using h' (i + 1) (Nat.succ_lt_succ hi))
      simp [anyOfFrom, hrest, List.range']
      omega

lemma anyOf_first_true (l : List Bool) (K : Nat)
    (h : l.get? K = some true) (h' : ∀ i, i < K → l.get? i = some false) :
    anyOf l = (some K, List.range (K + 1)) := by
  have := anyOfFrom_first_true l K 0 h h'
  simpa [anyOf, List.range_eq_range'] using this

lemma bulkSendOne_recipient (t : Nat) (p : Page) (m r : String) :
    ((bulkSendOne t p m r).1).recipient = some (stripWa r) := by
  unfold bulkSendOne
  by_cases h : p.navRaises <;> simp [h, bulkFail, okBulk]
  rcases hh : (anyOf p.sendStratsBulk).1 with _ | k <;> simp [hh, bulkFail, okBulk]
  by_cases hc : p.clickOk <;> simp [hc, bulkFail, okBulk]

lemma sendPhase_fst_shape (p : Page) (t : Nat) (evs : List Ev) :
    (∃ s, (sendPhase p t evs).1 = Except.ok (failRes s)) ∨
      (sendPhase p t evs).1 = Except.ok (okMsg t) := by
  unfold sendPhase
  by_cases h1 : (anyOf p.composeStrats).1.isSome ∧ ¬ p.insertScriptOk
  · rw [if_pos h1]
    exact Or.inl ⟨_, rfl⟩
  · rw [if_neg h1]
    rcases hh : (anyOf p.sendStratsMsg).1 with _ | k <;> simp only [hh]
    · exact Or.inl ⟨_, rfl⟩
    · by_cases hc : p.clickOk
      · rw [if_pos hc]
        exact Or.inr rfl
      · rw [if_neg hc]
        exact Or.inl ⟨_, rfl⟩

lemma chatPhase_fst_shape (p : Page) (t : Nat) (phone clean : String) :
    (∃ s, (chatPhase p t phone clean).1 = Except.error s) ∨
    (∃ s, (chatPhase p t phone clean).1 = Except.ok (failRes s)) ∨
      (chatPhase p t phone clean).1 = Except.ok (okMsg t) := by
  unfold chatPhase
  by_cases h1 : p.navRaises
  · rw [if_pos h1]
    exact Or.inl ⟨_, rfl⟩
  · rw [if_neg h1]
    by_cases h2 : chatResolves p
    · rw [if_neg (by simpa using h2)]
      by_cases h3 : p.invalidBanner
      · rw [if_pos h3]
        exact Or.inr (Or.inl ⟨_, rfl⟩)
      · rw [if_neg h3]
        exact Or.inr (sendPhase_fst_shape p t _)
    · rw [if_pos (by simpa using h2)]
      exact Or.inr (Or.inl ⟨_, rfl⟩)

lemma send_message_inner_fst_shape (e : MsgEnv) (to_phone m : String) :
    (∃ s, (send_message_inner e to_phone m).1 = Except.error s) ∨
    (∃ s, (send_message_inner e to_phone m).1 = Except.ok (failRes s)) ∨
      (send_message_inner e to_phone m).1 = Except.ok (okMsg e.time) := by
  unfold send_message_inner
  by_cases h1 : e.driverInitOk
  case neg => rw [if_pos (by simpa using h1)]; exact Or.inl ⟨_, rfl⟩
  rw [if_neg (by simpa using h1)]
  by_cases h2 : e.initNavOk
  case neg => rw [if_pos (by simpa using h2)]; exact Or.inl ⟨_, rfl⟩
  rw [if_neg (by simpa using h2)]
  by_cases h3 : e.sideOk
  · rw [if_pos h3]
    simpa using chatPhase_fst_shape e.page e.time _ _
  rw [if_neg h3]
  by_cases h4 : e.qrFound
  all_goals by_cases h5 : e.recreateOk
  all_goals by_cases h6 : e.retryDriverOk
  all_goals by_cases h7 : e.retrySideOk
  all_goals simp only [h4, h5, h6, h7, not_true, not_false_iff, if_true, if_false,
    ite_true, ite_false, if_neg, if_pos, not_false_eq_true]
  all_goals first
    | exact Or.inl ⟨_, rfl⟩
    | exact Or.inr (Or.inl ⟨_, rfl⟩)
    | simpa using chatPhase_fst_shape e.page e.time _ _

lemma runMsg_fst_shape (e : MsgEnv) (to_phone m : String) :
    (∃ s, (runMsg e to_phone m).1 = failRes s) ∨ (runMsg e to_phone m).1 = okMsg e.time := by
  rcases hp : send_message_inner e to_phone m with ⟨res, tr⟩
  have hs := send_message_inner_fst_shape e to_phone m
  rw [hp] at hs
  unfold runMsg send_message
  rw [hp]
  rcases hs with ⟨s, h⟩ | ⟨s, h⟩ | h <;> simp at h <;> subst h
  · exact Or.inl ⟨_, rfl⟩
  · exact Or.inl ⟨_, rfl⟩
  · exact Or.inr rfl

lemma bulkSendOne_fst_shape (t : Nat) (p : Page) (m r : String) :
    (∃ s, (bulkSendOne t p m r).1 = bulkFail (stripWa r) s) ∨
      (bulkSendOne t p m r).1 = okBulk t (cleanPhone (stripWa r)) (stripWa r) := by
  unfold bulkSendOne
  by_cases h : p.navRaises
  · rw [if_pos h]
    exact Or.inl ⟨_, rfl⟩
  · rw [if_neg h]
    rcases hh : (anyOf p.sendStratsBulk).1 with _ | k <;> simp only [hh]
    · exact Or.inl ⟨_, rfl⟩
    · by_cases hc : p.clickOk
      · rw [if_pos hc]
        exact Or.inr rfl
      · rw [if_neg hc]
        exact Or.inl ⟨_, rfl⟩

lemma runBulk_fst_char (e : BulkEnv) (R : List String) (m : String) :
    (runBulk e R m).1 =
        R.map (fun r => bulkFail r ("Driver initialization failed: " ++ e.driverInitError)) ∨
    (runBulk e R m).1 =
        R.map (fun r => bulkFail r ("WhatsApp Web session expired and auto-recreation failed. " ++
          "Please run setup manually.")) ∨
    (runBulk e R m).1 =
        R.map (fun r => bulkFail r "WhatsApp Web session could not be restored") ∨
    (runBulk e R m).1 = R.map (fun r => (bulkSendOne e.time (e.pages r) m r).1) := by
  unfold runBulk send_bulk_inner
  by_cases h1 : e.driverInitOk
  case neg =>
    rw [if_pos (by simpa using h1)]
    exact Or.inl rfl
  rw [if_neg (by simpa using h1)]
  by_cases h2 : e.sideOk
  · simp only [h2, ite_true, if_true]
    exact Or.inr (Or.inr (Or.inr trivial))
  simp only [h2, ite_false, if_false]
  by_cases h3 : e.recreateOk
  all_goals by_cases h4 : e.retryOk
  all_goals simp only [h3, h4, not_true, not_false_iff, ite_true, ite_false, if_true, if_false,
    not_false_eq_true]
  all_goals first
    | exact Or.inr (Or.inr (Or.inr trivial))
    | exact Or.inr (Or.inl rfl)
    | exact Or.inr (Or.inr (Or.inl rfl))
    | exact Or.inr (Or.inr (Or.inr rfl))

lemma coherent_failRes (s : String) : coherent (failRes s) := by
  refine ⟨?_, ?_, ?_, ?_⟩ <;> simp [coherent, failRes]

lemma coherent_bulkFail (r s : String) : coherent (bulkFail r s) := by
  refine ⟨?_, ?_, ?_, ?_⟩ <;> simp [coherent, bulkFail]

lemma coherent_okMsg (t : Nat) : coherent (okMsg t) := by
  refine ⟨?_, ?_, ?_, ?_⟩ <;> simp [coherent, okMsg]

lemma coherent_okBulk (t : Nat) (c r : String) : coherent (okBulk t c r) := by
  refine ⟨?_, ?_, ?_, ?_⟩ <;> simp [coherent, okBulk]

/-- C2 counterexample.  `send_bulk_messages` CAN raise to the caller: the
driver-manager resolution (`Service(ChromeDriverManager().install())`,
line 329) executes before the `try` block, so its failure is caught by no
handler of the function and propagates as an exception instead of being
converted into `SendResult`s. -/
theorem bulk_dispatch_raise_counterexample :
    envMgrFail.driverMgrOk = false ∧
    send_bulk_messages envMgrFail ["+15551234567"] "hi" =
      Except.error "chromedriver download failed" := by
  exact ⟨rfl, rfl⟩

/-- C2 amended.  `send_message` never raises on any path: its outermost
`except` handler converts every escaping exception into a failure
dictionary.  `send_bulk_messages` does the same for every failure inside
its `try` block (driver start, session validation and recovery,
per-recipient sends), but its driver-manager resolution (line 329)
precedes the `try`: when it fails, the exception propagates to the
caller and no result list is produced at all. -/
theorem dispatch_exception_policy :
    (∀ (e : MsgEnv) (to_phone m : String),
      send_message e to_phone m = Except.ok (runMsg e to_phone m)) ∧
    (∀ (e : BulkEnv) (R : List String) (m : String), e.driverMgrOk = true →
      send_bulk_messages e R m = Except.ok (runBulk e R m)) ∧
    (∀ (e : BulkEnv) (R : List String) (m : String), e.driverMgrOk = false →
      send_bulk_messages e R m = Except.error e.driverMgrError) := by
  refine ⟨?_, ?_, ?_⟩
  · intro e to_phone m
    rcases hp : send_message_inner e to_phone m with ⟨res, tr⟩
    cases res <;> simp [runMsg, send_message, hp]
  · intro e R m hmgr
    unfold send_bulk_messages
    rw [if_neg (by simp [hmgr])]
    rcases hp : send_bulk_inner e R m with ⟨res, tr⟩
    cases res <;> simp [runBulk, hp]
  · intro e R m hmgr
    unfold send_bulk_messages
    rw [if_pos (by simp [hmgr])]

/-- C2 amended witness. -/
theorem dispatch_exception_policy_witness :
    send_message envGoodM "+15551234567" "hi" =
      Except.ok (runMsg envGoodM "+15551234567" "hi") ∧
    send_bulk_messages envGoodB ["+15551234567"] "hi" =
      Except.ok (runBulk envGoodB ["+15551234567"] "hi") ∧
    send_bulk_messages envMgrFail ["+15550000001"] "hi" =
      Except.error envMgrFail.driverMgrError := by
  exact ⟨dispatch_exception_policy.1 envGoodM "+15551234567" "hi",
    dispatch_exception_policy.2.1 envGoodB ["+15551234567"] "hi" rfl,
    dispatch_exception_policy.2.2 envMgrFail ["+15550000001"] "hi" rfl⟩

/-- C1.  `send_bulk_messages` returns one result per input recipient, in
input order, on every execution path (valid session, failed recreation,
failed restore, driver-initialization failure, per-recipient failures):
the result list always has the input's length, and the `i`-th entry is
tagged with the `i`-th recipient (verbatim on the pre-loop failure paths,
after the `whatsapp:`-prefix strip of the loop body otherwise). -/
theorem bulk_result_length_and_order (e : BulkEnv) (R : List String) (m : String) :
    (runBulk e R m).1.length = R.length ∧
    ∀ i r0, R.get? i = some r0 →
      ((runBulk e R m).1.get? i).map SendResult.recipient = some (some r0) ∨
      ((runBulk e R m).1.get? i).map SendResult.recipient = some (some (stripWa r0)) := by
  rcases runBulk_fst_char e R m with h | h | h | h <;> rw [h] <;>
    refine ⟨by simp, fun i r0 hi => ?_⟩ <;>
    rw [List.get?_map, hi, Option.map_some', Option.map_some']
  · exact Or.inl rfl
  · exact Or.inl rfl
  · exact Or.inl rfl
  · exact Or.inr (by rw [bulkSendOne_recipient])

/-- C1 witness. -/
theorem bulk_result_length_and_order_witness :
    (runBulk envGoodB ["+15551234567", "+15550000000"] "hi").1.length = 2 ∧
    (((runBulk envGoodB ["+15551234567", "+15550000000"] "hi").1.get? 1).map
        SendResult.recipient = some (some "+15550000000") ∨
     ((runBulk envGoodB ["+15551234567", "+15550000000"] "hi").1.get? 1).map
        SendResult.recipient = some (some (stripWa "+15550000000"))) := by
  have h := bulk_result_length_and_order envGoodB ["+15551234567", "+15550000000"] "hi"
  exact ⟨h.1, h.2 1 "+15550000000" rfl⟩

/-- C3 counterexample.  A driver-initialization failure does not always
leave `send_bulk_messages` returning failed results: when the
driver-manager resolution (line 329) — a driver-initialization failure
mode by the spec's own taxonomy ("driver cannot start") — raises, the
exception escapes the function (it sits before the `try`), so the caller
receives no `SendResult` list at all instead of one failed result per
recipient. -/
theorem bulk_driver_init_raise_counterexample :
    envMgrFail.driverMgrOk = false ∧
    envMgrFail.driverMgrError = "chromedriver download failed" ∧
    send_bulk_messages envMgrFail ["+1bad", "+15551234567"] "hello" =
      Except.error "chromedriver download failed" := by
  exact ⟨rfl, rfl, rfl⟩

/-- C3 amended.  Driver initialization can fail in two modes.  If the
driver-manager resolution of line 329 succeeds and the in-`try` driver
start (lines 332–339) fails, the claim holds: the function returns
(never raises), every recipient receives the same failed result carrying
the driver-initialization error, and no per-recipient send is attempted
— the trace holds only the failed driver start, with no conversation
navigation and no send-control lookup.  If instead the driver-manager
resolution itself fails, the exception propagates to the caller and the
batch produces no results (still no per-recipient send occurs). -/
theorem bulk_driver_init_failure_behavior (e : BulkEnv) (R : List String) (m : String) :
    (e.driverMgrOk = true → e.driverInitOk = false →
      send_bulk_messages e R m = Except.ok (runBulk e R m) ∧
      (runBulk e R m).1 =
        R.map (fun r => bulkFail r ("Driver initialization failed: " ++ e.driverInitError)) ∧
      (runBulk e R m).1.length = R.length ∧
      (runBulk e R m).2 = [Ev.createDriver] ∧
      (∀ c, Ev.navChat c ∉ (runBulk e R m).2) ∧
      (∀ j, Ev.sendStrategy j ∉ (runBulk e R m).2)) ∧
    (e.driverMgrOk = false →
      send_bulk_messages e R m = Except.error e.driverMgrError) := by
  constructor
  · intro hmgr h
    have hrun : runBulk e R m =
        (R.map (fun r => bulkFail r ("Driver initialization failed: " ++ e.driverInitError)),
         [Ev.createDriver]) := by
      unfold runBulk send_bulk_inner
      rw [if_pos (by simp [h])]
    have hok : send_bulk_messages e R m = Except.ok (runBulk e R m) := by
      unfold send_bulk_messages
      rw [if_neg (by simp [hmgr])]
      rcases hp : send_bulk_inner e R m with ⟨res, tr⟩
      cases res <;> simp [runBulk, hp]
    rw [hrun]
    refine ⟨by rw [← hrun]; exact hok, rfl, by simp, rfl, ?_, ?_⟩ <;> intro x <;> simp
  · intro hmgr
    unfold send_bulk_messages
    rw [if_pos (by simp [hmgr])]

/-- C3 amended witness. -/
theorem bulk_driver_init_failure_behavior_witness :
    (runBulk envFailB ["+15551234567"] "hi").1 =
      [bulkFail "+15551234567" ("Driver initialization failed: " ++ "boom")] ∧
    (runBulk envFailB ["+15551234567"] "hi").2 = [Ev.createDriver] ∧
    send_bulk_messages envMgrFail ["+447700900000"] "hi" =
      Except.error envMgrFail.driverMgrError := by
  have h := (bulk_driver_init_failure_behavior envFailB ["+15551234567"] "hi").1 rfl rfl
  have h2 := (bulk_driver_init_failure_behavior envMgrFail ["+447700900000"] "hi").2 rfl
  exact ⟨h.2.1, h.2.2.2.1, h2⟩

/-- C6.  A locator-strategy chain (the embedding `anyOf` of `EC.any_of`
and of the sequential `find_element` fallback chains) with `N` candidates
of which exactly the `K`-th succeeds returns the `K`-th strategy's handle
(its index), invokes exactly the strategies `0..K` in declaration order
— never any strategy after the `K`-th — and aggregates nothing across
strategies.  The same holds for the five-strategy send-control chain run
by the bulk loop body `bulkSendOne`, as its recorded trace shows. -/
theorem locator_chain_first_success (l : List Bool) (K : Nat) (t : Nat) (p : Page)
    (m r : String) (hK : l.get? K = some true) (hlt : ∀ i, i < K → l.get? i = some false)
    (hp : p.sendStratsBulk = l) (hnav : p.navRaises = false) :
    (anyOf l).1 = some K ∧
    (anyOf l).2 = List.range (K + 1) ∧
    (∀ j, j ∈ (anyOf l).2 → j ≤ K) ∧
    (∀ j, Ev.sendStrategy j ∈ (bulkSendOne t p m r).2 → j ≤ K) := by
  have ha := anyOf_first_true l K hK hlt
  refine ⟨by rw [ha], by rw [ha], ?_, ?_⟩
  · intro j hj
    rw [ha] at hj
    simp only [List.mem_range] at hj
    omega
  · intro j hj
    unfold bulkSendOne at hj
    rw [if_neg (by simp [hnav]), hp, ha] at hj
    by_cases hc : p.clickOk <;> simp [hc, List.mem_range] at hj <;> omega

/-- C6 witness: three candidates, only the second succeeds. -/
theorem locator_chain_first_success_witness :
    (anyOf [false, true, false]).1 = some 1 ∧
    (anyOf [false, true, false]).2 = List.range 2 ∧
    (∀ j, j ∈ (anyOf [false, true, false]).2 → j ≤ 1) := by
  have h := locator_chain_first_success [false, true, false] 1 0
    { pageGood with sendStratsBulk := [false, true, false] } "hi" "+15551234567"
    rfl (by decide) rfl rfl
  exact ⟨h.1, h.2.1, h.2.2.1⟩

/-- C10.  Every result dictionary either dispatcher produces is internally
coherent: `success=true` iff `status='sent'` iff `error` is null iff the
synthetic message handle is non-null; every failed result has
`status='failed'`, a non-null error string and a null handle. -/
theorem send_result_coherent :
    (∀ (e : MsgEnv) (to_phone m : String), coherent (runMsg e to_phone m).1) ∧
    (∀ (e : BulkEnv) (R : List String) (m : String),
      ∀ r ∈ (runBulk e R m).1, coherent r) := by
  constructor
  · intro e to_phone m
    rcases runMsg_fst_shape e to_phone m with ⟨s, h⟩ | h <;> rw [h]
    · exact coherent_failRes s
    · exact coherent_okMsg e.time
  · intro e R m r hr
    rcases runBulk_fst_char e R m with h | h | h | h <;> rw [h] at hr <;>
      rcases List.mem_map.mp hr with ⟨r0, _, hr0⟩ <;> rw [← hr0]
    · exact coherent_bulkFail _ _
    · exact coherent_bulkFail _ _
    · exact coherent_bulkFail _ _
    · rcases bulkSendOne_fst_shape e.time (e.pages r0) m r0 with ⟨s, hs⟩ | hs <;> rw [hs]
      · exact coherent_bulkFail _ _
      · exact coherent_okBulk _ _ _

/-- C10 witness. -/
theorem send_result_coherent_witness :
    coherent (runMsg envGoodM "+15551234567" "hi").1 ∧
    coherent (bulkFail "+15551234567"
      ("Driver initialization failed: " ++ "boom")) := by
  constructor
  · exact send_result_coherent.1 envGoodM "+15551234567" "hi"
  · exact send_result_coherent.2 envFailB ["+15551234567"] "hi"
      (bulkFail "+15551234567" ("Driver initialization failed: " ++ "boom"))
      (by decide)

/-- C4 counterexample.  A bulk send of `["+1bad"]` against a platform
page that shows the invalid-address banner (`pageBad.invalidBanner`)
produces a failed result whose error is the send-control one — it does
not mention the invalid address — and the trace shows that a send-control
lookup WAS attempted (strategy 0 invoked), contrary to the claim. -/
theorem bulk_invalid_banner_counterexample :
    pageBad.invalidBanner = true ∧
    runBulk envB4 ["+1bad"] "hello" =
      ([bulkFail "+1bad" ("Could not find send button: " ++ "Timed out")],
       [Ev.createDriver, Ev.navHome, Ev.waitLogin, Ev.navChat "1bad",
        Ev.sendStrategy 0, Ev.sendStrategy 1, Ev.sendStrategy 2,
        Ev.sendStrategy 3, Ev.sendStrategy 4]) ∧
    Ev.sendStrategy 0 ∈ (runBulk envB4 ["+1bad"] "hello").2 := by
  refine ⟨rfl, rfl, by decide⟩

/-- C4 amended.  In the single-send dispatcher a banner-flagged recipient
yields `success=false`, `status='failed'`, error
`'Invalid phone number: <address>'`, and no send-control lookup is
attempted.  In the bulk dispatcher the flagged recipient still receives
exactly one failed result, but the banner is never consulted: on such a
page (whose send control never resolves) the error instead reports the
send control not found. -/
theorem invalid_banner_behavior :
    (∀ (e : MsgEnv) (to_phone m : String),
      e.driverInitOk = true → e.initNavOk = true → e.sideOk = true →
      e.page.navRaises = false → e.page.invalidBanner = true →
      runMsg e to_phone m =
        (failRes ("Invalid phone number: " ++ stripWa to_phone),
         [Ev.createDriver, Ev.navHome, Ev.waitLogin,
          Ev.navChat (cleanPhone (stripWa to_phone)), Ev.chatWait, Ev.findInvalidBanner]) ∧
      (∀ j, Ev.sendStrategy j ∉ (runMsg e to_phone m).2)) ∧
    (∀ (e : BulkEnv) (r m : String),
      e.driverInitOk = true → e.sideOk = true →
      (e.pages r).navRaises = false → (e.pages r).invalidBanner = true →
      (anyOf (e.pages r).sendStratsBulk).1 = none →
      (runBulk e [r] m).1 =
        [bulkFail (stripWa r) ("Could not find send button: " ++ (e.pages r).sendWaitErr)]) := by
  constructor
  · intro e to_phone m h1 h2 h3 hnav hban
    have hchat : chatPhase e.page e.time (stripWa to_phone) (cleanPhone (stripWa to_phone)) =
        (Except.ok (failRes ("Invalid phone number: " ++ stripWa to_phone)),
         [Ev.navChat (cleanPhone (stripWa to_phone)), Ev.chatWait, Ev.findInvalidBanner]) := by
      unfold chatPhase
      rw [if_neg (by simp [hnav]), if_neg (by simp [chatResolves, hban]), if_pos hban]
    have hinner : send_message_inner e to_phone m =
        (Except.ok (failRes ("Invalid phone number: " ++ stripWa to_phone)),
         [Ev.createDriver, Ev.navHome, Ev.waitLogin,
          Ev.navChat (cleanPhone (stripWa to_phone)), Ev.chatWait, Ev.findInvalidBanner]) := by
      unfold send_message_inner
      rw [if_neg (by simp [h1]), if_neg (by simp [h2]), if_pos h3]
      simp only [hchat]
      rfl
    have hrun : runMsg e to_phone m =
        (failRes ("Invalid phone number: " ++ stripWa to_phone),
         [Ev.createDriver, Ev.navHome, Ev.waitLogin,
          Ev.navChat (cleanPhone (stripWa to_phone)), Ev.chatWait, Ev.findInvalidBanner]) := by
      unfold runMsg send_message
      rw [hinner]
    refine ⟨hrun, ?_⟩
    intro j
    rw [hrun]
    simp
  · intro e r m h1 h2 hnav hban hnone
    have hone : (bulkSendOne e.time (e.pages r) m r).1 =
        bulkFail (stripWa r) ("Could not find send button: " ++ (e.pages r).sendWaitErr) := by
      unfold bulkSendOne
      rw [if_neg (by simp [hnav])]
      simp only [hnone]
    have hrun : (runBulk e [r] m).1 =
        [(bulkSendOne e.time (e.pages r) m r).1] := by
      unfold runBulk send_bulk_inner
      rw [if_neg (by simp [h1])]
      simp only [h2, ite_true, if_true]
      rfl
    rw [hrun, hone]

/-- C4 amended witness. -/
theorem invalid_banner_behavior_witness :
    runMsg envM5 "+1bad" "hi" =
      (failRes ("Invalid phone number: " ++ stripWa "+1bad"),
       [Ev.createDriver, Ev.navHome, Ev.waitLogin,
        Ev.navChat (cleanPhone (stripWa "+1bad")), Ev.chatWait, Ev.findInvalidBanner]) ∧
    (runBulk envB4 ["+1bad"] "hi").1 =
      [bulkFail (stripWa "+1bad")
        ("Could not find send button: " ++ (envB4.pages "+1bad").sendWaitErr)] := by
  exact ⟨(invalid_banner_behavior.1 envM5 "+1bad" "hi" rfl rfl rfl rfl rfl).1,
    invalid_banner_behavior.2 envB4 "+1bad" "hi" rfl rfl rfl rfl rfl⟩

/-- C5 counterexample.  With the same valid session and the same platform
page (`pageBad`, which shows the invalid-address banner), the bulk loop
body and the Message Dispatcher produce materially different results for
the recipient `"+1bad"`: the single dispatcher detects the banner and
reports the invalid address, the bulk loop never consults the banner (and
never performs the compose-input overwrite) and reports a missing send
control — so the bulk per-recipient behaviour is not an invocation of the
Message Dispatcher. -/
theorem bulk_vs_single_dispatch_counterexample :
    envM5.page = envB4.pages "+1bad" ∧
    runMsg envM5 "+1bad" "hello" =
      (failRes ("Invalid phone number: " ++ "+1bad"),
       [Ev.createDriver, Ev.navHome, Ev.waitLogin, Ev.navChat "1bad",
        Ev.chatWait, Ev.findInvalidBanner]) ∧
    (runBulk envB4 ["+1bad"] "hello").1 =
      [bulkFail "+1bad" ("Could not find send button: " ++ "Timed out")] ∧
    (runMsg envM5 "+1bad" "hello").1.error ≠
      (bulkFail "+1bad" ("Could not find send button: " ++ "Timed out")).error ∧
    Ev.findInvalidBanner ∈ (runMsg envM5 "+1bad" "hello").2 ∧
    Ev.findInvalidBanner ∉ (runBulk envB4 ["+1bad"] "hello").2 ∧
    Ev.insertScript ∉ (runBulk envB4 ["+1bad"] "hello").2 := by
  refine ⟨rfl, rfl, rfl, by decide, by decide, by decide, by decide⟩

/-- C5 amended.  The bulk loop body performs only navigation,
send-control location and click — it omits the Message Dispatcher's
chat-load wait, invalid-address detection and compose-input overwrite —
so its result only agrees with the Message Dispatcher's on pages where
those omitted steps do not matter: with a valid session, a loadable page
with no banner, a resolvable compose input and send control and a
successful click, both produce a success, and the `success`, `status` and
`error` fields agree (the synthetic handles differ by construction, and
only the bulk result carries the recipient tag). -/
theorem bulk_single_agree_on_success (eM : MsgEnv) (eB : BulkEnv) (p : Page) (r m : String)
    (h1 : eM.driverInitOk = true) (h2 : eM.initNavOk = true) (h3 : eM.sideOk = true)
    (h4 : eM.page = p) (h5 : eB.driverInitOk = true) (h6 : eB.sideOk = true)
    (h7 : eB.pages r = p) (hnav : p.navRaises = false) (hban : p.invalidBanner = false)
    (hcomp : (anyOf p.composeStrats).1.isSome = true) (hins : p.insertScriptOk = true)
    (hsm : (anyOf p.sendStratsMsg).1.isSome = true)
    (hsb : (anyOf p.sendStratsBulk).1.isSome = true) (hclick : p.clickOk = true) :
    (runMsg eM r m).1 = okMsg eM.time ∧
    (runBulk eB [r] m).1 = [okBulk eB.time (cleanPhone (stripWa r)) (stripWa r)] ∧
    (runMsg eM r m).1.success = (okBulk eB.time (cleanPhone (stripWa r)) (stripWa r)).success ∧
    (runMsg eM r m).1.status = (okBulk eB.time (cleanPhone (stripWa r)) (stripWa r)).status ∧
    (runMsg eM r m).1.error = (okBulk eB.time (cleanPhone (stripWa r)) (stripWa r)).error := by
  have hres : chatResolves p = true := by
    have ha := anyOf_isSome p.composeStrats
    rw [hcomp] at ha
    simp [chatResolves, ← ha]
  obtain ⟨k, hk⟩ := Option.isSome_iff_exists.mp hsm
  obtain ⟨k2, hk2⟩ := Option.isSome_iff_exists.mp hsb
  have hsp : ∀ evs, (sendPhase p eM.time evs).1 = Except.ok (okMsg eM.time) := by
    intro evs
    unfold sendPhase
    rw [if_neg (by simp [hins])]
    simp only [hk]
    rw [if_pos hclick]
  have hcp : (chatPhase p eM.time (stripWa r) (cleanPhone (stripWa r))).1 =
      Except.ok (okMsg eM.time) := by
    unfold chatPhase
    rw [if_neg (by simp [hnav]), if_neg (by simp [hres]), if_neg (by simp [hban])]
    exact hsp _
  have hfst : (send_message_inner eM r m).1 = Except.ok (okMsg eM.time) := by
    unfold send_message_inner
    rw [if_neg (by simp [h1]), if_neg (by simp [h2]), if_pos h3]
    show (chatPhase eM.page eM.time (stripWa r) (cleanPhone (stripWa r))).1 = _
    rw [h4]
    exact hcp
  have hM : (runMsg eM r m).1 = okMsg eM.time := by
    rcases hp : send_message_inner eM r m with ⟨res, tr⟩
    rw [hp] at hfst
    simp only at hfst
    subst hfst
    unfold runMsg send_message
    rw [hp]
  have hone : (bulkSendOne eB.time (eB.pages r) m r).1 =
      okBulk eB.time (cleanPhone (stripWa r)) (stripWa r) := by
    unfold bulkSendOne
    rw [h7, if_neg (by simp [hnav])]
    simp only [hk2]
    rw [if_pos hclick]
  have hB : (runBulk eB [r] m).1 = [okBulk eB.time (cleanPhone (stripWa r)) (stripWa r)] := by
    have hrun : (runBulk eB [r] m).1 = [(bulkSendOne eB.time (eB.pages r) m r).1] := by
      unfold runBulk send_bulk_inner
      rw [if_neg (by simp [h5])]
      simp only [h6, ite_true, if_true]
      rfl
    rw [hrun, hone]
  refine ⟨hM, hB, ?_, ?_, ?_⟩ <;> rw [hM] <;> rfl

/-- C5 amended witness. -/
theorem bulk_single_agree_on_success_witness :
    (runMsg envGoodM "+15551234567" "hi").1 = okMsg envGoodM.time ∧
    (runBulk envGoodB ["+15551234567"] "hi").1 =
      [okBulk envGoodB.time (cleanPhone (stripWa "+15551234567")) (stripWa "+15551234567")] ∧
    (runMsg envGoodM "+15551234567" "hi").1.success = true := by
  have h := bulk_single_agree_on_success envGoodM envGoodB pageGood "+15551234567" "hi"
    rfl rfl rfl rfl rfl rfl rfl rfl rfl rfl rfl rfl rfl rfl
  exact ⟨h.1, h.2.1, by rw [h.1]; rfl⟩

/-- C7.  `create_session_backup` returns `false` (and, being total in the
embedding — the Python wraps its body in a catch-all returning `False` —
never raises) exactly when no session profile exists; when a profile
exists it replaces (never merges into) any prior backup with a copy of
the profile, leaves the profile itself untouched, and returns `true`. -/
theorem session_backup_spec (fs : FsState) :
    ((create_session_backup fs).1 = true ↔ fs.profile.isSome = true) ∧
    ((create_session_backup fs).2).profile = fs.profile ∧
    (fs.profile = none → (create_session_backup fs).2 = fs ∧ (create_session_backup fs).1 = false) ∧
    (∀ fl, fs.profile = some fl →
      ((create_session_backup fs).2).backup = some fl ∧ (create_session_backup fs).1 = true) := by
  cases h : fs.profile <;> simp [create_session_backup, h]

/-- C7 witness. -/
theorem session_backup_spec_witness :
    (create_session_backup { profile := none, backup := some ["old"] }).2 =
        { profile := none, backup := some ["old"] } ∧
    (create_session_backup { profile := none, backup := some ["old"] }).1 = false ∧
    (create_session_backup { profile := some ["a"], backup := some ["old"] }).2.backup =
        some ["a"] ∧
    (create_session_backup { profile := some ["a"], backup := some ["old"] }).1 = true := by
  have h1 := (session_backup_spec { profile := none, backup := some ["old"] }).2.2.1 rfl
  have h2 := (session_backup_spec { profile := some ["a"], backup := some ["old"] }).2.2.2
    ["a"] rfl
  exact ⟨h1.1, h1.2, h2.1, h2.2⟩

/-- C8.  Entered with a profile and a backup present, the session
recreator first clears the profile, restores the backup into place and
re-runs the validator; if the restored copy validates, recreation
succeeds immediately — the fresh-handshake (QR) step is never reached and
the profile holds the backup's contents; if it does not validate, the
restored copy is cleared again strictly before the QR step (the trace
shows the second clear preceding `enteredQR`), and recreation's outcome
is the handshake's. -/
theorem recreate_with_backup_spec (env : RecEnv) (fs : FsState) (pf b : List String)
    (hp : fs.profile = some pf) (hb : fs.backup = some b) :
    (env.restoredValid = true →
      recreate_session_automatically env fs =
        (true, { fs with profile := some b },
         [Ev.clearedProfile, Ev.restoredBackup, Ev.ranValidator]) ∧
      Ev.enteredQR ∉ (recreate_session_automatically env fs).2.2) ∧
    (env.restoredValid = false →
      (recreate_session_automatically env fs).1 = env.qrScanOk ∧
      (recreate_session_automatically env fs).2.2 =
        [Ev.clearedProfile, Ev.restoredBackup, Ev.ranValidator, Ev.clearedProfile,
         Ev.enteredQR] ++ (if env.qrScanOk then [Ev.backedUp] else [])) := by
  constructor
  · intro hv
    have heq : recreate_session_automatically env fs =
        (true, { fs with profile := some b },
         [Ev.clearedProfile, Ev.restoredBackup, Ev.ranValidator]) := by
      unfold recreate_session_automatically
      simp only [hp, hb, hv, ite_true, if_true]
      rfl
    refine ⟨heq, ?_⟩
    rw [heq]
    simp
  · intro hv
    unfold recreate_session_automatically setup_fresh_session_with_qr
    simp only [hp, hb, hv, ite_false, if_false, Bool.false_eq_true]
    by_cases hq : env.qrScanOk <;>
      simp [hq, create_session_backup]

/-- C8 witness. -/
theorem recreate_with_backup_spec_witness :
    recreate_session_automatically { restoredValid := true, qrScanOk := false, qrProfile := [] }
        { profile := some ["live"], backup := some ["saved"] } =
      (true, { profile := some ["saved"], backup := some ["saved"] },
       [Ev.clearedProfile, Ev.restoredBackup, Ev.ranValidator]) ∧
    Ev.enteredQR ∉ (recreate_session_automatically
        { restoredValid := true, qrScanOk := false, qrProfile := [] }
        { profile := some ["live"], backup := some ["saved"] }).2.2 := by
  exact (recreate_with_backup_spec
    { restoredValid := true, qrScanOk := false, qrProfile := [] }
    { profile := some ["live"], backup := some ["saved"] } ["live"] ["saved"] rfl rfl).1 rfl

/-- C9.  The status check behind `sessionIsActive()` is a pure filesystem
existence probe: it never opens a browser context (its event trace is
empty), it leaves the contents of the profile and backup directories
unchanged (the service constructor only ensures an empty profile
directory exists), its boolean is determined by the stored profile's
contents, and repeating the call returns the same boolean and the same
state. -/
theorem session_is_active_pure (fs : FsState) :
    (whatsapp_web_status fs).1 = (fs.profile.getD []).contains "Default" ∧
    ((whatsapp_web_status fs).2.1).profile.getD [] = fs.profile.getD [] ∧
    ((whatsapp_web_status fs).2.1).backup = fs.backup ∧
    (whatsapp_web_status fs).2.2 = ([] : List Ev) ∧
    whatsapp_web_status ((whatsapp_web_status fs).2.1) =
      ((whatsapp_web_status fs).1, (whatsapp_web_status fs).2.1, ([] : List Ev)) := by
  refine ⟨rfl, by simp [whatsapp_web_status], rfl, rfl, ?_⟩
  simp [whatsapp_web_status]
